import Mathlib

/-!
Verification development for the fingertips Confluence question-answering
service.  The definitions below are a shallow embedding of the two core
modules:

* `work/fingertips/confluence/agents/openai.py` - the OpenAI assistant
  run loop (`wait_for_run`, `handle_submit_tool_outputs`,
  `submit_search_confluence_tool_outputs`, `extract_relevant_messages`).
* `work/fingertips/confluence/managers/aichat.py` - the retry supervisor
  (`generate_response`), the per-query fan-out (`process_query`,
  `process_result`, `process_chunk`), markup stripping and chunking.

External collaborators (the OpenAI client, the Confluence REST client and
the chat model) are modelled as oracle structures: plain functions supplied
as parameters.  Operations that can raise a Python exception are modelled
with `Except String`.  Python string truthiness is modelled explicitly.
-/

/-- Python truthiness of an optional string: `None` and the empty string
are falsy, any other string is truthy. -/
def pyTruthy (s : Option String) : Bool :=
  match s with
  | none => false
  | some s => !s.isEmpty

/-- Python truthiness of an optional list: `None` and `[]` are falsy. -/
def pyTruthyList (l : Option (List String)) : Bool :=
  match l with
  | none => false
  | some l => !l.isEmpty

/-- Lookup in a parsed JSON object, as `dict.get(key)`: the value of the
first binding of `key`, or `None` when absent. -/
def dictGet (d : List (String × String)) (key : String) : Option String :=
  (d.find? (fun p => p.1 = key)).map (fun p => p.2)

/-! ## Agent: `agents/openai.py` -/

/-- The `function` member of an OpenAI tool call: a tool name and its
argument payload.  Arguments are modelled after `json.loads`: a parsed
JSON object (association list of string fields). -/
structure ToolFunction where
  name : String
  arguments : List (String × String)

/-- One tool call issued by the assistant inside a `requires_action` run
step (`run.required_action.submit_tool_outputs.tool_calls` element). -/
structure ToolCall where
  id : String
  function : ToolFunction

/-- One entry of the `tool_outputs` list of a
`runs.submit_tool_outputs` API call. -/
structure ToolOutput where
  tool_call_id : String
  output : String

/-- The Confluence manager operations invoked by the dispatcher
(`self._confluence_manager.search_confluence` / `load_confluence_page`),
composed with the `json.dumps` serialisation the dispatcher applies to
their results.  `Except.error` models a raised Python exception.  The
argument is the `Option` produced by `arguments.get(...)` (the source
passes it straight through, `None` included). -/
structure ConfluenceOps where
  search_confluence : Option String → Except String String
  load_confluence_page : Option String → Except String String

/-- Body of one iteration of the dispatcher loop in
`OpenAIAgent.handle_submit_tool_outputs`: `results` starts as `None`, is
set by the `search_confluence` branch and then by the
`load_confluence_page` branch (two sequential `if` statements on the tool
name), with exceptions propagating. -/
def dispatchOne (ops : ConfluenceOps) (tc : ToolCall) : Except String (Option String) :=
  let step1 : Except String (Option String) :=
    if tc.function.name = "search_confluence" then
      match ops.search_confluence (dictGet tc.function.arguments "cql_query") with
      | .ok s => .ok (some s)
      | .error e => .error e
    else .ok none
  match step1 with
  | .error e => .error e
  | .ok results =>
    if tc.function.name = "load_confluence_page" then
      match ops.load_confluence_page (dictGet tc.function.arguments "page_or_content_id") with
      | .ok s => .ok (some s)
      | .error e => .error e
    else .ok results

/-- `OpenAIAgent.submit_search_confluence_tool_outputs`: one
`runs.submit_tool_outputs` API call whose `tool_outputs` payload is the
singleton list for the given call id. -/
def submit_search_confluence_tool_outputs (tool_call_id : String) (results : String) :
    List ToolOutput :=
  [⟨tool_call_id, results⟩]

/-- `OpenAIAgent.handle_submit_tool_outputs`: iterates over the pending
tool calls; for the first call whose dispatch produces a non-`None`
result it performs one `submit_tool_outputs` API call and RETURNS (the
`return` statement sits inside the `for` loop).  The value is the list of
`submit_tool_outputs` API calls performed (each with its `tool_outputs`
payload), paired with the exception escaping the method, if any. -/
def handle_submit_tool_outputs (ops : ConfluenceOps) :
    List ToolCall → List (List ToolOutput) × Option String
  | [] => ([], none)
  | tc :: rest =>
    match dispatchOne ops tc with
    | .error e => ([], some e)
    | .ok (some results) => ([submit_search_confluence_tool_outputs tc.id results], none)
    | .ok none => handle_submit_tool_outputs ops rest

/-- A polled run, reduced to the field the polling loop inspects. -/
structure RunInfo where
  status : String

/-- The polling loop opening `OpenAIAgent.wait_for_run`:
`while run.status not in ("completed", "requires_action"): retrieve` .
`retrieve k` is the k-th `runs.retrieve` result.  The loop itself has no
exit for any other status, so we give the interpreter a fuel bound:
`none` means the loop has not exited within `fuel` retrievals. -/
def wait_for_run_loop (retrieve : Nat → RunInfo) : Nat → Nat → Option (RunInfo × Nat)
  | 0, _ => none
  | fuel + 1, k =>
    let run := retrieve k
    if run.status = "completed" || run.status = "requires_action" then some (run, k)
    else wait_for_run_loop retrieve fuel (k + 1)

/-- A thread message as consumed by `extract_relevant_messages`:
its id, creation timestamp and text content. -/
structure ThreadMsg where
  id : String
  created_at : Nat
  text : String
deriving DecidableEq

/-- `OpenAIAgent.extract_relevant_messages`: walks the listed messages in
order, collecting them until the message with the given id is reached
(`break`), which is excluded.  `send_message` applies this to the
`messages.list` output with the id of the just-posted user message. -/
def extract_relevant_messages : List ThreadMsg → String → List ThreadMsg
  | [], _ => []
  | msg :: rest, message_id =>
    if msg.id = message_id then []
    else msg :: extract_relevant_messages rest message_id

/-! ## Manager: `managers/aichat.py` -/

/-- `CONTEXT_LIMIT = os.getenv("OPENAI_MODEL_CONTEXT_LIMIT", 100000)`:
the default value used when the environment variable is unset. -/
def CONTEXT_LIMIT : Nat := 100000

/-- Output schema `cql_output` of the formulate step (field order as in
the source pydantic model).  Each field is `None` or a value; `cql` is a
list of CQL query fragments. -/
structure CqlOutput where
  cql : Option (List String)
  failure : Option String
  thoughts : Option String
  keywords : Option String
  synonyms : Option String
  answer : Option String
  warning : Option String
deriving DecidableEq

/-- Output schema `answer_output` of the per-chunk step (field order as
in the source pydantic model). -/
structure AnswerOutput where
  failure : Option String
  thoughts : Option String
  keywords : Option String
  synonyms : Option String
  answer : Option String
  warning : Option String
deriving DecidableEq

/-- A `cql_output` whose only populated field is `cql`. -/
def cqlOnly (l : List String) : CqlOutput :=
  ⟨some l, none, none, none, none, none, none⟩

/-- The fixed apology returned by `generate_response` on warning, failure
and budget exhaustion. -/
def apology : String :=
  "I\x27m sorry, I am unable to answer your request. Please paraphrase your question. What information do you seek?"

/-- The fixed part of the formulate prompt before the user query
(triple-quoted f-string in `generate_response`, indentation included). -/
def basePromptPre : String :=
  "\n        Ponder the user query below very carefully to identify keywords, remove useless information like the company name, and generate effective, efficient CQL queries.\n        Consider synonyms, categories, alternative meanings, and other possibilities.\n        For example, if the user asks about databases, you might not find the word \x27databases\x27 but may want to search for common types of databases like \x27MySQL\x27, \x27Postgresql\x27 or \x27MsSQL\x27.\n        The CQL queries should search the text and titles use all reasonable permutations of OR, and AND, and parentheses to mimimize API calls.\n        Think step by step. We only get one shot at this, so make it count. If the user query is not a valid question, respond as your system message mandates.\n        \n        USER QUERY: \n        "

/-- The fixed part of the formulate prompt after the user query. -/
def basePromptPost : String := "\n        "

/-- The `user_query` f-string of `generate_response` before the forbidden
section is appended. -/
def baseQuery (uq : String) : String :=
  basePromptPre ++ uq ++ basePromptPost

/-- The header prepended to the failed-queries list
(`FORBIDDEN QUERIES: ...`, a triple-quoted literal). -/
def forbiddenHeader : String :=
  "\n                FORBIDDEN QUERIES: \n                The following CQL queries returned no results. Do not use them:\n                "

/-- The forbidden section appended when `failed_cql` is truthy:
the header followed by `"\n- ".join(failed_cql)`. -/
def forbiddenSection (failed_cql : List String) : String :=
  if failed_cql.isEmpty then ""
  else forbiddenHeader ++ String.intercalate "\n- " failed_cql

/-- The full prompt sent to the assistant by one formulate cycle of
`generate_response`. -/
def buildPrompt (uq : String) (failed_cql : List String) : String :=
  baseQuery uq ++ forbiddenSection failed_cql

/-- Scans for the closing `>` of a candidate markup tag: the characters
consumed by the lazy `.*?` of the regex `<.*?>`.  Returns the remainder
after the first `>`, or `none` when a newline (which `.` does not match)
or the end of input is reached first. -/
def findTagEnd : List Char → Option (List Char)
  | [] => none
  | c :: rest =>
    if c = '>' then some rest
    else if c = '\n' then none
    else findTagEnd rest

/-- `findTagEnd` only ever returns a strict suffix. -/
theorem findTagEnd_length : ∀ (l r : List Char), findTagEnd l = some r → r.length < l.length
  | [], _, h => by simp [findTagEnd] at h
  | c :: rest, r, h => by
    by_cases hgt : c = '>'
    · simp [findTagEnd, hgt] at h
      simp [← h, List.length_cons]
    · by_cases hnl : c = '\n'
      · simp [findTagEnd, hgt, hnl] at h
      · simp [findTagEnd, hgt, hnl] at h
        exact Nat.lt_succ_of_lt (findTagEnd_length rest r h)

/-- `re.sub("<.*?>", "", content_body)` (the markup-stripping line of
`process_result`): repeatedly removes the leftmost non-greedy match of
`<.*?>`.  A match starts at a `<` and ends at the first subsequent `>`
with no newline in between; a `<` with no such `>` is left in place and
scanning resumes after it. -/
def stripTags : List Char → List Char
  | [] => []
  | c :: rest =>
    if c = '<' then
      match h : findTagEnd rest with
      | some rest2 => stripTags rest2
      | none => c :: stripTags rest
    else c :: stripTags rest
termination_by l => l.length
decreasing_by
  · exact Nat.lt_succ_of_lt (findTagEnd_length rest rest2 h)
  · exact Nat.lt_succ_self _
  · exact Nat.lt_succ_self _

/-- The chunking comprehension of `process_result`:
`[content_body[i : i + CONTEXT_LIMIT] for i in range(0, len(content_body), CONTEXT_LIMIT)]`.
`range(0, n, k)` is rendered as the first `ceil(n / k)` multiples of `k`;
slicing is `drop` then `take`.  Text is modelled as a list of
characters. -/
def pychunks (l : List Char) (k : Nat) : List (List Char) :=
  (List.range ((l.length + k - 1) / k)).map (fun i => (l.drop (i * k)).take k)

/-- The per-chunk prompt `ai_query` of `process_chunk` (f-string,
indentation included). -/
def chunkPrompt (uq chunk : String) : String :=
  "\n            Answer the following question: " ++ uq ++
  ", using only the context provided at the end of this message.\n            If there is no answer, respond with \x27failure: I\x27m sorry, inadequate info.\x27.\n            Do not include the question in your response. Use only the context above to answer the question.\n            \n            Context:\n            " ++
  chunk ++ "\n            \n        "

/-- `AIChatManager.process_chunk`: builds the chunk prompt, queries the
model (oracle `chunkAI`, a function of the prompt), and returns the
`answer` field when truthy; warnings and failures are only logged, and
the method otherwise falls through returning `None`. -/
def process_chunk (chunkAI : String → AnswerOutput) (uq chunk : String) : Option String :=
  let r := chunkAI (chunkPrompt uq chunk)
  if pyTruthy r.answer then some (r.answer.getD "") else none

/-- One element of `confluence_client.cql(query, limit=5)["results"]`,
reduced to the field `process_result` reads (`result["content"]["id"]`). -/
structure PageResult where
  content_id : String

/-- The Confluence REST client as seen by the manager:
`cql` returns the `"results"` list of a search, `pageBody` the
`["body"]["view"]["value"]` of `get_page_by_id`, and `pageWebui` the
`["_links"]["webui"]` of the same expanded page. -/
structure ConfluenceStore where
  cql : String → List PageResult
  pageBody : String → String
  pageWebui : String → String

/-- `AIChatManager.process_result`: fetch the page body, strip markup,
chunk it, evaluate every chunk, keep the non-`None` answers formatted
with the page id and webui link, and join them - `None` when no chunk
answered. -/
def process_result (store : ConfluenceStore) (chunkAI : String → AnswerOutput)
    (uq : String) (result : PageResult) : Option String :=
  let content_body := store.pageBody result.content_id
  let stripped := stripTags content_body.toList
  let chunks := pychunks stripped CONTEXT_LIMIT
  let answers := (chunks.map (fun ch => process_chunk chunkAI uq (String.mk ch))).reduceOption
  let answers := answers.map (fun answer =>
    "Page ID" ++ result.content_id ++ ": " ++ answer ++ ", Refs: " ++
      store.pageWebui result.content_id)
  if answers.isEmpty then none else some (String.intercalate "\n" answers)

/-- `AIChatManager.process_query`: run the CQL search (limit 5), map
`process_result` over the results, drop the `None`s, and join the
per-document answers with newlines. -/
def process_query (store : ConfluenceStore) (chunkAI : String → AnswerOutput)
    (uq : String) (query : String) : String :=
  let results := store.cql query
  let answers := (results.map (process_result store chunkAI uq)).reduceOption
  String.intercalate "\n" answers

/-- The combined query of a searching cycle:
`" OR ".join([f"({cql})" for cql in cql])`. -/
def combinedQuery (cql : List String) : String :=
  String.intercalate " OR " (cql.map (fun c => "(" ++ c ++ ")"))

/-- The external services used by `generate_response`: the structured
chat model (`ai`, a function of the full prompt, returning a
`cql_output`) and the whole `process_query` pipeline (`search`, a
function of the combined CQL query). -/
structure AIChatEnv where
  ai : String → CqlOutput
  search : String → String

/-- Observable result of one `generate_response` call: the returned
string, the final contents of the (mutated) `failed_cql` list, and the
formulate prompts and combined CQL queries issued, in order (the prompts
of recursive retries included). -/
structure GenResult where
  response : String
  failedOut : List String
  prompts : List String
  searches : List String

/-- `AIChatManager.generate_response`: one formulate cycle.  Checks
`warning`, `failure`, `answer` truthiness in order; on truthy `cql` it
joins the fragments with `" OR "`, runs `process_query`, and on an empty
result extends `failed_cql`, increments `failure_count` and retries
itself while `failure_count < 2`.  The value of the recursive call is
assigned to the local `response` and then control falls through to the
final apology `return`, so the retry result is not propagated; `failedOut`
models the final state of the `failed_cql` list object, which the source
mutates in place with `extend`. -/
def generate_response (env : AIChatEnv) (uq : String)
    (failed_cql : List String) (failure_count : Nat) : GenResult :=
  let prompt := buildPrompt uq failed_cql
  let r := env.ai prompt
  if pyTruthy r.warning then ⟨apology, failed_cql, [prompt], []⟩
  else if pyTruthy r.failure then ⟨apology, failed_cql, [prompt], []⟩
  else if pyTruthy r.answer then ⟨r.answer.getD "", failed_cql, [prompt], []⟩
  else if pyTruthyList r.cql then
    let cql := r.cql.getD []
    let query := combinedQuery cql
    let response := env.search query
    if response = "" then
      let failure_count := failure_count + 1
      let failed_cql := failed_cql ++ cql
      if h : failure_count < 2 then
        let rec_result := generate_response env uq failed_cql failure_count
        ⟨apology, rec_result.failedOut, prompt :: rec_result.prompts,
          query :: rec_result.searches⟩
      else ⟨apology, failed_cql, [prompt], [query]⟩
    else ⟨response, failed_cql, [prompt], [query]⟩
  else ⟨apology, failed_cql, [prompt], []⟩
termination_by 2 - failure_count
decreasing_by omega

/-! ## Spec-side model of marked-up text (for the markup-stripping claim)

The spec states that stripping "removes all markup tags losslessly with
respect to visible text".  `Markup` generates documents as interleavings
of visible characters and tags; `render` is the raw markup text and
`visible` the text a reader sees. -/

/-- A document interleaving visible characters and markup tags.
`tag inner rest` renders as `<` ++ inner ++ `>` followed by `rest`. -/
inductive Markup : Type where
  | nil : Markup
  | ch : Char → Markup → Markup
  | tag : List Char → Markup → Markup

/-- The raw marked-up text of a document. -/
def Markup.render : Markup → List Char
  | .nil => []
  | .ch c m => c :: m.render
  | .tag inner m => '<' :: (inner ++ '>' :: m.render)

/-- The visible text of a document: every tag contributes nothing. -/
def Markup.visible : Markup → List Char
  | .nil => []
  | .ch c m => c :: m.visible
  | .tag _ m => m.visible

/-- Well-formedness: visible characters are not `<`, and a tag body
contains neither `>` (which would end the tag early) nor a newline. -/
def Markup.wf : Markup → Bool
  | .nil => true
  | .ch c m => c != '<' && m.wf
  | .tag inner m => !inner.contains '>' && !inner.contains '\n' && m.wf

/-- Builds a run of visible characters. -/
def Markup.chs : List Char → Markup → Markup
  | [], m => m
  | c :: cs, m => .ch c (Markup.chs cs m)

/-! ## Concrete instances used by individual claims -/

/-- A Confluence manager whose operations succeed with fixed payloads. -/
def okOps : ConfluenceOps :=
  ⟨fun _ => .ok "SEARCH_RESULTS_JSON", fun _ => .ok "PAGE_JSON"⟩

/-- A Confluence manager whose search operation raises. -/
def raisingOps : ConfluenceOps :=
  ⟨fun _ => .error "ConnectionError", fun _ => .ok "PAGE_JSON"⟩

/-- A pending `search_confluence` tool call with the given id. -/
def searchCall (i : String) : ToolCall :=
  ⟨i, ⟨"search_confluence", [("cql_query", "type=page")]⟩⟩

/-- A run stream stuck in the terminal status `failed`. -/
def failedRetrieve : Nat → RunInfo := fun _ => ⟨"failed"⟩

/-- Messages of a thread as `messages.list` returns them: newest first.
`exM1` is the just-posted user message; `exM2`, `exM3` were produced by
the run that followed it (`exM3` newest); `exM0` is older history. -/
def exM3 : ThreadMsg := ⟨"msg_3", 30, "assistant answer part 2"⟩

/-- Second-newest message of the example thread. -/
def exM2 : ThreadMsg := ⟨"msg_2", 20, "assistant answer part 1"⟩

/-- The just-posted user message of the example thread. -/
def exM1 : ThreadMsg := ⟨"msg_1", 10, "the user question"⟩

/-- Pre-existing older message of the example thread. -/
def exM0 : ThreadMsg := ⟨"msg_0", 0, "older history"⟩

/-- An assistant that proposes the fragment `q1` on the first formulate
prompt and `q2` on any other prompt. -/
def c3ai (p : String) : CqlOutput :=
  if p = buildPrompt "u" [] then cqlOnly ["q1"] else cqlOnly ["q2"]

/-- A search pipeline that finds nothing for `(q1)` and a real answer
for any other combined query. -/
def c3search (q : String) : String :=
  if q = "(q1)" then "" else "ANSWER_FROM_RETRY"

/-- Environment in which the first searching cycle is empty and the
retry cycle produces a non-empty result. -/
def c3env : AIChatEnv := ⟨c3ai, c3search⟩

/-- An assistant that always proposes the single fragment `qa`. -/
def constEnv : AIChatEnv := ⟨fun _ => cqlOnly ["qa"], fun _ => ""⟩

/-- A store with no matching documents for any query. -/
def emptyStore : ConfluenceStore := ⟨fun _ => [], fun _ => "", fun _ => ""⟩

/-- A chunk model that never answers. -/
def silentChunkAI : String → AnswerOutput := fun _ => ⟨none, none, none, none, none, none⟩

/-- Environment whose search is the real `process_query` pipeline over
`emptyStore`, with an assistant that always proposes `qx`. -/
def c5env : AIChatEnv :=
  ⟨fun _ => cqlOnly ["qx"], fun q => process_query emptyStore silentChunkAI "u" q⟩

/-- The example document of the markup-stripping claim. -/
def exMarkup : Markup :=
  .tag ['p'] (Markup.chs "Hello ".toList
    (.tag ['b'] (Markup.chs "World".toList
      (.tag ['/', 'b'] (.tag ['/', 'p'] .nil)))))

/-! ## General lemmas about the embedded operations -/

set_option maxRecDepth 8192

/-- With `failure_count = 1` the retry guard `failure_count + 1 < 2` is
false, so a formulate cycle at failure count 1 issues exactly its own
prompt, whatever the assistant and the search return. -/
theorem genResp_prompts_at_one (env : AIChatEnv) (uq : String) (failed : List String) :
    (generate_response env uq failed 1).prompts = [buildPrompt uq failed] := by
  unfold generate_response
  dsimp only
  split
  · rfl
  · split
    · rfl
    · split
      · rfl
      · split
        · split
          · split
            · omega
            · rfl
          · rfl
        · rfl

/-- Every `generate_response` call issues, first, the prompt built from
the failed list it was given. -/
theorem genResp_prompts_head (env : AIChatEnv) (uq : String) (failed : List String)
    (fc : Nat) :
    (generate_response env uq failed fc).prompts.head? = some (buildPrompt uq failed) := by
  unfold generate_response
  dsimp only
  split
  · rfl
  · split
    · rfl
    · split
      · rfl
      · split
        · split
          · split
            · rfl
            · rfl
          · rfl
        · rfl

/-! ## C1: tool-output submission count per run step -/

/-- C1: the claim states that a `requires_action` step with N pending
tool calls has all N dispatched and exactly N ToolOutputs submitted
before polling resumes.  The code instead returns from inside the
dispatch loop after the first submission: with two pending
`search_confluence` calls, exactly one `submit_tool_outputs` API call is
made, carrying one ToolOutput tagged with the first call id, and the
second call is never dispatched or answered. -/
theorem c1_second_tool_call_never_submitted :
    handle_submit_tool_outputs okOps [searchCall "call_1", searchCall "call_2"] =
      ([submit_search_confluence_tool_outputs "call_1" "SEARCH_RESULTS_JSON"], none)
    ∧ ((handle_submit_tool_outputs okOps [searchCall "call_1", searchCall "call_2"]).1.flatten.map
        ToolOutput.tool_call_id) = ["call_1"]
    ∧ (handle_submit_tool_outputs okOps [searchCall "call_1", searchCall "call_2"]).1.flatten.length
        = 1 :=
  ⟨rfl, rfl, rfl⟩

/-! ## C2: terminal non-success run statuses -/

/-- C2: the claim states that a run reaching `failed` (or `expired`,
`cancelled`) makes `wait_for_run` terminate with an explicit RunFailed
error.  The polling loop of `wait_for_run` only exits on `completed` or
`requires_action`; on a run stuck in `failed` it never exits - for every
fuel bound the loop is still running - and no error of any kind exists in
the code. -/
theorem c2_failed_run_polls_forever :
    ∀ (fuel start : Nat), wait_for_run_loop failedRetrieve fuel start = none := by
  intro fuel
  induction fuel with
  | zero => intro start; rfl
  | succ n ih =>
    intro start
    simp only [wait_for_run_loop, failedRetrieve]
    exact ih (start + 1)

/-! ## C6: exceptions inside the dispatcher -/

/-- C6 counterexample: the claim states a raising tool operation is
caught and answered with an error-description ToolOutput.  With a
`search_confluence` operation that raises, the dispatcher makes no
`submit_tool_outputs` call at all and the exception escapes
`handle_submit_tool_outputs`. -/
theorem c6_counterexample_exception_escapes :
    handle_submit_tool_outputs raisingOps [searchCall "call_9"] = ([], some "ConnectionError")
    ∧ (handle_submit_tool_outputs raisingOps [searchCall "call_9"]).1 = [] :=
  ⟨rfl, rfl⟩

/-- C6 amended: when the dispatch of a pending tool call raises (all
earlier calls having matched no tool name and submitted nothing), the
exception propagates out of `handle_submit_tool_outputs` and no
ToolOutput is submitted for any call. -/
theorem c6_dispatch_exception_propagates (ops : ConfluenceOps) (pre : List ToolCall)
    (tc : ToolCall) (rest : List ToolCall) (e : String)
    (hpre : ∀ p ∈ pre, dispatchOne ops p = .ok none)
    (htc : dispatchOne ops tc = .error e) :
    handle_submit_tool_outputs ops (pre ++ tc :: rest) = ([], some e) := by
  induction pre with
  | nil => simp only [List.nil_append, handle_submit_tool_outputs, htc]
  | cons p ps ih =>
    have hp := hpre p (by simp)
    simp only [List.cons_append, handle_submit_tool_outputs, hp]
    exact ih (fun x hx => hpre x (by simp [hx]))

/-- C6 witness: the amended statement applied to a raising search
operation at the head of the pending list. -/
theorem c6_dispatch_exception_propagates_witness :
    handle_submit_tool_outputs raisingOps ([] ++ searchCall "call_9" :: []) =
      ([], some "ConnectionError") :=
  c6_dispatch_exception_propagates raisingOps [] (searchCall "call_9") [] "ConnectionError"
    (by simp) rfl

/-! ## C7: messages returned after a completed run -/

/-- C7 counterexample: the claim states the messages produced during the
run come back in chronological (oldest-first) order.  `messages.list`
returns newest first; `extract_relevant_messages` keeps the prefix before
the user message in that same order, so the result is newest first: its
first element is strictly newer than its second. -/
theorem c7_counterexample_reverse_chronological :
    extract_relevant_messages [exM3, exM2, exM1, exM0] "msg_1" = [exM3, exM2]
    ∧ ¬ List.Pairwise (fun a b : ThreadMsg => a.created_at ≤ b.created_at) [exM3, exM2] := by
  refine ⟨rfl, ?_⟩
  decide

/-- C7 amended: over a newest-first listing, the run loop returns exactly
the messages listed before the just-posted user message - precisely the
strictly newer ones - preserving the listing (reverse-chronological)
order; in particular a single direct assistant answer comes back as that
one message, its text unchanged. -/
theorem c7_extract_newer_prefix (pre : List ThreadMsg) (m : ThreadMsg) (post : List ThreadMsg)
    (hpre : ∀ x ∈ pre, x.id ≠ m.id) :
    extract_relevant_messages (pre ++ m :: post) m.id = pre
    ∧ (List.Pairwise (fun a b => b.created_at < a.created_at) (pre ++ m :: post) →
        ∀ x ∈ pre, m.created_at < x.created_at) := by
  constructor
  · induction pre with
    | nil => simp [extract_relevant_messages]
    | cons p ps ih =>
      have hp : p.id ≠ m.id := hpre p (by simp)
      simp only [List.cons_append, extract_relevant_messages, if_neg hp, List.cons.injEq,
        true_and]
      exact ih (fun x hx => hpre x (by simp [hx]))
  · intro hs x hx
    exact (List.pairwise_append.mp hs).2.2 x hx m (by simp)

/-- C7 witness: the amended statement on the concrete newest-first
example thread. -/
theorem c7_extract_newer_prefix_witness :
    extract_relevant_messages ([exM3, exM2] ++ exM1 :: [exM0]) exM1.id = [exM3, exM2]
    ∧ (List.Pairwise (fun a b => b.created_at < a.created_at) ([exM3, exM2] ++ exM1 :: [exM0]) →
        ∀ x ∈ [exM3, exM2], exM1.created_at < x.created_at) :=
  c7_extract_newer_prefix [exM3, exM2] exM1 [exM0] (by decide)

/-- Evaluation of one formulate cycle whose assistant output is only
`cql` fragments and whose search result is non-empty: the result string
is returned and the failed list is untouched. -/
theorem genResp_cycle_found (env : AIChatEnv) (uq : String) (failed : List String)
    (fc : Nat) (l : List String) (r : String)
    (hai : env.ai (buildPrompt uq failed) = cqlOnly l) (hl : l ≠ [])
    (hr : env.search (combinedQuery l) = r) (hne : r ≠ "") :
    generate_response env uq failed fc =
      ⟨r, failed, [buildPrompt uq failed], [combinedQuery l]⟩ := by
  have hl' : l.isEmpty = false := by simpa [List.isEmpty_iff] using hl
  rw [generate_response, hai]
  dsimp only [cqlOnly, pyTruthy, pyTruthyList]
  rw [hl']
  dsimp only [Option.getD]
  rw [hr, if_neg hne]
  simp

/-- Evaluation of a formulate cycle at failure count 0 whose assistant
output is only `cql` fragments and whose search comes back empty: the
fragments are appended to the failed list, the retry runs at failure
count 1, and the apology - not the retry result - is returned. -/
theorem genResp_cycle_empty_retry (env : AIChatEnv) (uq : String) (failed : List String)
    (l : List String)
    (hai : env.ai (buildPrompt uq failed) = cqlOnly l) (hl : l ≠ [])
    (hz : env.search (combinedQuery l) = "") :
    generate_response env uq failed 0 =
      ⟨apology, (generate_response env uq (failed ++ l) 1).failedOut,
        buildPrompt uq failed :: (generate_response env uq (failed ++ l) 1).prompts,
        combinedQuery l :: (generate_response env uq (failed ++ l) 1).searches⟩ := by
  have hl' : l.isEmpty = false := by simpa [List.isEmpty_iff] using hl
  rw [generate_response, hai]
  dsimp only [cqlOnly, pyTruthy, pyTruthyList]
  rw [hl']
  dsimp only [Option.getD]
  rw [hz, if_pos rfl, dif_pos (by omega)]
  simp

/-- Evaluation of a formulate cycle with the retry budget exhausted
(`failure_count + 1 < 2` fails): fragments recorded, apology returned,
no further cycle. -/
theorem genResp_cycle_empty_exhausted (env : AIChatEnv) (uq : String) (failed : List String)
    (fc : Nat) (l : List String) (hfc : ¬ (fc + 1 < 2))
    (hai : env.ai (buildPrompt uq failed) = cqlOnly l) (hl : l ≠ [])
    (hz : env.search (combinedQuery l) = "") :
    generate_response env uq failed fc =
      ⟨apology, failed ++ l, [buildPrompt uq failed], [combinedQuery l]⟩ := by
  have hl' : l.isEmpty = false := by simpa [List.isEmpty_iff] using hl
  rw [generate_response, hai]
  dsimp only [cqlOnly, pyTruthy, pyTruthyList]
  rw [hl']
  dsimp only [Option.getD]
  rw [hz, if_pos rfl, dif_neg hfc]
  simp

/-! ## C3: non-empty search results and the retry cycle -/

/-- C3: the claim states that any Searching cycle with a non-empty
concatenated result returns that string to the top-level caller, retry
cycles included.  In the environment `c3env` the first cycle finds
nothing and the retry cycle finds `ANSWER_FROM_RETRY`; the retry cycle
itself returns that string, but the top-level call assigns it to a local
and falls through to the apology `return`, so the top-level caller
receives the apology instead. -/
theorem c3_retry_result_discarded :
    c3env.search (combinedQuery ["q2"]) = "ANSWER_FROM_RETRY"
    ∧ (generate_response c3env "u" ["q1"] 1).response = "ANSWER_FROM_RETRY"
    ∧ (generate_response c3env "u" [] 0).searches = [combinedQuery ["q1"], combinedQuery ["q2"]]
    ∧ (generate_response c3env "u" [] 0).response = apology
    ∧ apology ≠ "ANSWER_FROM_RETRY" := by
  have hinner : generate_response c3env "u" ["q1"] 1 =
      ⟨"ANSWER_FROM_RETRY", ["q1"], [buildPrompt "u" ["q1"]], [combinedQuery ["q2"]]⟩ :=
    genResp_cycle_found c3env "u" ["q1"] 1 ["q2"] "ANSWER_FROM_RETRY"
      (by decide) (by decide) (by decide) (by decide)
  have htop : generate_response c3env "u" [] 0 =
      ⟨apology, (generate_response c3env "u" ([] ++ ["q1"]) 1).failedOut,
        buildPrompt "u" [] :: (generate_response c3env "u" ([] ++ ["q1"]) 1).prompts,
        combinedQuery ["q1"] :: (generate_response c3env "u" ([] ++ ["q1"]) 1).searches⟩ :=
    genResp_cycle_empty_retry c3env "u" [] ["q1"]
      (by decide) (by decide) (by decide)
  simp only [List.nil_append] at htop
  rw [hinner] at htop
  refine ⟨by decide, by rw [hinner], by rw [htop], by rw [htop], by decide⟩

/-! ## C4: attempt budget and exhaustion -/

/-- C4: for EVERY environment - whatever the assistant answers on any
prompt and whatever any search returns - a top-level `generate_response`
call performs at most 2 formulate cycles; and when the budget is
exhausted without a usable answer (the assistant never returns a truthy
direct answer and every search comes back empty) it returns the fixed
apology string.  Termination is by construction: the embedded
`generate_response` is a total function, its recursion bounded by the
source guard `failure_count + 1 < 2`. -/
theorem c4_attempt_budget (env : AIChatEnv) (uq : String) (failed : List String) :
    (generate_response env uq failed 0).prompts.length ≤ 2
    ∧ ((∀ p, pyTruthy (env.ai p).answer = false) → (∀ q, env.search q = "") →
        (generate_response env uq failed 0).response = apology) := by
  constructor
  · rw [generate_response]
    dsimp only
    split
    · simp
    · split
      · simp
      · split
        · simp
        · split
          · split
            · split
              · simp [genResp_prompts_at_one]
              · simp
            · simp
          · simp
  · intro hans hsearch
    rw [generate_response]
    dsimp only
    split
    · rfl
    · split
      · rfl
      · split
        · next h => rw [hans] at h; simp at h
        · split
          · split
            · split
              · rfl
              · next h => exact absurd (by omega) h
            · next h => exact absurd (hsearch _) h
          · rfl

/-- C4 witness: the budget theorem applied to a concrete environment
that always proposes the fragment `qa` and always finds nothing, the
exhaustion hypotheses discharged there. -/
theorem c4_attempt_budget_witness :
    (generate_response constEnv "u" [] 0).prompts.length ≤ 2
    ∧ (generate_response constEnv "u" [] 0).response = apology :=
  ⟨(c4_attempt_budget constEnv "u" []).1,
    (c4_attempt_budget constEnv "u" []).2 (fun _ => rfl) (fun _ => rfl)⟩

/-! ## C5: the zero-result retry path -/

/-- C5 counterexample: the claim ends by stating that failed fragments
are never resubmitted for the same request.  The exclusion is only a
sentence in the next prompt: with an assistant that proposes the
fragment `qa` again despite the forbidden list, the retry executes the
very same combined query a second time - the recorded fragment is
resubmitted verbatim. -/
theorem c5_counterexample_forbidden_fragment_resubmitted :
    (generate_response constEnv "u" [] 0).searches =
      [combinedQuery ["qa"], combinedQuery ["qa"]]
    ∧ (generate_response constEnv "u" ["qa"] 1).prompts = [buildPrompt "u" ["qa"]]
    ∧ buildPrompt "u" ["qa"] =
        baseQuery "u" ++ (forbiddenHeader ++ String.intercalate "\n- " ["qa"]) := by
  have h1 : generate_response constEnv "u" ([] ++ ["qa"]) 1 =
      ⟨apology, ([] ++ ["qa"]) ++ ["qa"], [buildPrompt "u" ([] ++ ["qa"])],
        [combinedQuery ["qa"]]⟩ :=
    genResp_cycle_empty_exhausted constEnv "u" ([] ++ ["qa"]) 1 ["qa"] (by omega)
      rfl (by decide) rfl
  have h0 := genResp_cycle_empty_retry constEnv "u" [] ["qa"] rfl (by decide) rfl
  rw [h1] at h0
  refine ⟨by rw [h0], ?_, by simp [buildPrompt, forbiddenSection]⟩
  · have := genResp_prompts_at_one constEnv "u" ["qa"]
    exact this

/-- C5 amended: a search query whose CQL search returns zero results
makes `process_query` return the empty string, and a top-level
`generate_response` whose first formulate cycle proposed the fragments
then performs exactly one retry (exactly two formulate prompts), with
all failed fragments recorded in the failed list and that list included
in the second formulate prompt as the forbidden-queries section; the
exclusion is prompt-level only, not enforced against the assistant. -/
theorem c5_zero_results_single_retry (store : ConfluenceStore)
    (chunkAI : String → AnswerOutput) (env : AIChatEnv) (uq : String)
    (failed0 l : List String)
    (hse : ∀ q, env.search q = process_query store chunkAI uq q)
    (hai : env.ai (buildPrompt uq failed0) = cqlOnly l)
    (hl : l ≠ [])
    (hzero : store.cql (combinedQuery l) = []) :
    process_query store chunkAI uq (combinedQuery l) = ""
    ∧ (generate_response env uq failed0 0).prompts =
        [buildPrompt uq failed0, buildPrompt uq (failed0 ++ l)]
    ∧ buildPrompt uq (failed0 ++ l) =
        baseQuery uq ++ (forbiddenHeader ++ String.intercalate "\n- " (failed0 ++ l))
    ∧ ∀ f ∈ l, f ∈ failed0 ++ l := by
  have hpq : process_query store chunkAI uq (combinedQuery l) = "" := by
    unfold process_query
    rw [hzero]
    rfl
  have hz : env.search (combinedQuery l) = "" := by rw [hse]; exact hpq
  have htop := genResp_cycle_empty_retry env uq failed0 l hai hl hz
  have hne : (failed0 ++ l).isEmpty = false := by
    rcases l with _ | ⟨a, l⟩
    · exact absurd rfl hl
    · rcases failed0 with _ | ⟨b, f0⟩ <;> rfl
  refine ⟨hpq, ?_, ?_, ?_⟩
  · rw [htop]
    dsimp only
    rw [genResp_prompts_at_one]
  · simp [buildPrompt, forbiddenSection, hne]
  · intro f hf
    exact List.mem_append_right _ hf

/-- C5 witness: the amended statement on the empty store with fragment
`qx`. -/
theorem c5_zero_results_single_retry_witness :
    process_query emptyStore silentChunkAI "u" (combinedQuery ["qx"]) = ""
    ∧ (generate_response c5env "u" [] 0).prompts =
        [buildPrompt "u" [], buildPrompt "u" ([] ++ ["qx"])]
    ∧ buildPrompt "u" ([] ++ ["qx"]) =
        baseQuery "u" ++ (forbiddenHeader ++ String.intercalate "\n- " ([] ++ ["qx"]))
    ∧ ∀ f ∈ ["qx"], f ∈ [] ++ ["qx"] :=
  c5_zero_results_single_retry emptyStore silentChunkAI c5env "u" [] ["qx"]
    (fun _ => rfl) rfl (by decide) rfl

/-! ## C10: the shared mutable default argument -/

/-- C10: `generate_response` declares `failed_cql: Optional[List[str]] = []`;
the default list is created once at function definition time and shared
by every call that omits the argument, across all `AIChatManager`
instances.  The embedding threads that single list object explicitly:
a second top-level call that omits `failed_cql` receives the list as
mutated by the first call (`failedOut`).  Every fragment present in it -
in particular every fragment recorded as failed during the first call -
appears in the forbidden-query list of the first formulate prompt of
the second call, whose forbidden section is the header followed by the
joined list. -/
theorem c10_shared_default_persists (env1 env2 : AIChatEnv) (uq1 uq2 : String)
    (d0 : List String) (f : String)
    (hf : f ∈ (generate_response env1 uq1 d0 0).failedOut) :
    (generate_response env2 uq2 ((generate_response env1 uq1 d0 0).failedOut) 0).prompts.head?
      = some (buildPrompt uq2 ((generate_response env1 uq1 d0 0).failedOut))
    ∧ forbiddenSection ((generate_response env1 uq1 d0 0).failedOut) =
        forbiddenHeader ++
          String.intercalate "\n- " ((generate_response env1 uq1 d0 0).failedOut)
    ∧ f ∈ (generate_response env1 uq1 d0 0).failedOut := by
  have hne : ((generate_response env1 uq1 d0 0).failedOut).isEmpty = false := by
    rcases h : (generate_response env1 uq1 d0 0).failedOut with _ | ⟨a, l⟩
    · rw [h] at hf; simp at hf
    · rfl
  exact ⟨genResp_prompts_head _ _ _ _, by simp [forbiddenSection, hne], hf⟩

/-- C10 witness: two successive default-omitting calls against the
constant environment; the fragment `qa` recorded by the first call is in
the forbidden list of the prompt of the second call. -/
theorem c10_shared_default_persists_witness :
    (generate_response constEnv "u2" ((generate_response constEnv "u" [] 0).failedOut) 0).prompts.head?
      = some (buildPrompt "u2" ((generate_response constEnv "u" [] 0).failedOut))
    ∧ forbiddenSection ((generate_response constEnv "u" [] 0).failedOut) =
        forbiddenHeader ++
          String.intercalate "\n- " ((generate_response constEnv "u" [] 0).failedOut)
    ∧ "qa" ∈ (generate_response constEnv "u" [] 0).failedOut :=
  c10_shared_default_persists constEnv constEnv "u" "u2" [] "qa" (by
    rw [genResp_cycle_empty_retry constEnv "u" [] ["qa"] rfl (by decide) rfl]
    dsimp only
    rw [genResp_cycle_empty_exhausted constEnv "u" ([] ++ ["qa"]) 1 ["qa"] (by omega)
      rfl (by decide) rfl]
    simp)

/-! ## C8: chunking -/

/-- Chunking the empty text yields no chunks. -/
theorem pychunks_nil (k : Nat) (hk : 0 < k) : pychunks [] k = [] := by
  unfold pychunks
  simp only [List.length_nil]
  rw [show 0 + k - 1 = k - 1 from by omega, Nat.div_eq_of_lt (by omega)]
  rfl

/-- Head-expansion of the chunking comprehension: the first chunk is the
first `k` characters, the remaining chunks are the chunks of the rest. -/
theorem pychunks_cons (k : Nat) (hk : 0 < k) (l : List Char) (hl : l ≠ []) :
    pychunks l k = l.take k :: pychunks (l.drop k) k := by
  have hn : 1 ≤ l.length := List.length_pos.mpr hl
  unfold pychunks
  have hc : (l.length + k - 1) / k = (l.length - 1) / k + 1 := by
    rw [show l.length + k - 1 = (l.length - 1) + k from by omega, Nat.add_div_right _ hk]
  rw [hc, List.range_succ_eq_map, List.map_cons, List.map_map]
  congr 1
  · simp
  · have hm : (l.length - 1) / k = ((l.drop k).length + k - 1) / k := by
      rw [List.length_drop]
      rcases le_or_lt l.length k with hle | hlt
      · rw [show l.length - k = 0 from by omega]
        rw [Nat.div_eq_of_lt (by omega), Nat.div_eq_of_lt (by omega)]
      · rw [show l.length - k + k - 1 = (l.length - k - 1) + k from by omega,
          Nat.add_div_right _ hk,
          show l.length - 1 = (l.length - k - 1) + k from by omega,
          Nat.add_div_right _ hk]
    rw [← hm]
    apply List.map_congr_left
    intro i _
    simp only [Function.comp_apply]
    rw [List.drop_drop, Nat.succ_mul, Nat.add_comm (i * k) k, Nat.add_comm]

/-- Concatenating the chunks in index order reconstructs the text. -/
theorem pychunks_flatten (k : Nat) (hk : 0 < k) : ∀ l : List Char, (pychunks l k).flatten = l
  | [] => by rw [pychunks_nil k hk]; rfl
  | c :: tl => by
    rw [pychunks_cons k hk (c :: tl) (by simp), List.flatten_cons,
      pychunks_flatten k hk ((c :: tl).drop k), List.take_append_drop]
termination_by l => l.length
decreasing_by simp [List.length_drop]; omega

/-- Every chunk respects the size bound. -/
theorem pychunks_length_le (k : Nat) (l : List Char) :
    ∀ ch ∈ pychunks l k, ch.length ≤ k := by
  intro ch hch
  simp only [pychunks, List.mem_map, List.mem_range] at hch
  obtain ⟨i, _, rfl⟩ := hch
  simp [List.length_take]

/-- C8: the chunker splits any stripped text into non-overlapping,
order-preserving chunks of at most `CONTEXT_LIMIT` characters whose
concatenation in index order is the original text; a 250000-character
text with the default 100000 limit yields exactly 3 chunks of lengths
100000, 100000, 50000. -/
theorem c8_chunking :
    (∀ text : List Char,
        (pychunks text CONTEXT_LIMIT).flatten = text
        ∧ ∀ ch ∈ pychunks text CONTEXT_LIMIT, ch.length ≤ CONTEXT_LIMIT)
    ∧ (pychunks (List.replicate 250000 'a') CONTEXT_LIMIT).map List.length =
        [100000, 100000, 50000] := by
  refine ⟨fun text => ⟨pychunks_flatten _ (by decide) text, pychunks_length_le _ text⟩, ?_⟩
  rw [show pychunks (List.replicate 250000 'a') CONTEXT_LIMIT =
      (List.range (((List.replicate 250000 'a').length + CONTEXT_LIMIT - 1) / CONTEXT_LIMIT)).map
        (fun i => ((List.replicate 250000 'a').drop (i * CONTEXT_LIMIT)).take CONTEXT_LIMIT)
      from rfl]
  rw [List.length_replicate]
  rw [show (250000 + CONTEXT_LIMIT - 1) / CONTEXT_LIMIT = 3 from by norm_num [CONTEXT_LIMIT]]
  rw [show List.range 3 = [0, 1, 2] from rfl]
  simp only [List.map_cons, List.map_nil, List.map_map, Function.comp_apply,
    List.length_take, List.length_drop, List.length_replicate]
  norm_num [CONTEXT_LIMIT]

/-! ## C9: markup stripping -/

/-- Stripping the empty text. -/
theorem stripTags_nil : stripTags [] = [] := by
  rw [stripTags]

/-- A character other than `<` can never start a match and is kept. -/
theorem stripTags_cons_ne (c : Char) (l : List Char) (hc : c ≠ '<') :
    stripTags (c :: l) = c :: stripTags l := by
  rw [stripTags, if_neg hc]

/-- A `<` whose tag closes before any newline is removed together with
the whole matched span. -/
theorem stripTags_tag (l l2 : List Char) (h : findTagEnd l = some l2) :
    stripTags ('<' :: l) = stripTags l2 := by
  rw [stripTags, if_pos rfl]
  split
  · next r heq => rw [h] at heq; cases heq; rfl
  · next heq => rw [h] at heq; cases heq

/-- A `<` with no closing `>` before a newline or the end of input does
not match and is kept. -/
theorem stripTags_lt_none (l : List Char) (h : findTagEnd l = none) :
    stripTags ('<' :: l) = '<' :: stripTags l := by
  rw [stripTags, if_pos rfl]
  split
  · next r heq => rw [h] at heq; cases heq
  · rfl

/-- The lazy scan runs through a tag body free of `>` and newlines and
stops right after the closing `>`. -/
theorem findTagEnd_through (inner rest : List Char)
    (h1 : inner.contains '>' = false) (h2 : inner.contains '\n' = false) :
    findTagEnd (inner ++ '>' :: rest) = some rest := by
  induction inner with
  | nil => simp [findTagEnd]
  | cons c cs ih =>
    simp only [List.contains_cons, Bool.or_eq_false_iff, beq_eq_false_iff_ne] at h1 h2
    simp only [List.cons_append, findTagEnd, if_neg (Ne.symm h1.1), if_neg (Ne.symm h2.1)]
    exact ih h1.2 h2.2

/-- Text without `<` is left unchanged. -/
theorem stripTags_no_lt (l : List Char) (h : l.contains '<' = false) :
    stripTags l = l := by
  induction l with
  | nil => exact stripTags_nil
  | cons c cs ih =>
    simp only [List.contains_cons, Bool.or_eq_false_iff, beq_eq_false_iff_ne] at h
    rw [stripTags_cons_ne c cs (Ne.symm h.1), ih h.2]

/-- On well-formed markup (no `<` in visible text, no `>` or newline
inside a tag) stripping recovers exactly the visible text. -/
theorem strip_markup_visible : ∀ m : Markup, m.wf = true → stripTags m.render = m.visible := by
  intro m
  induction m with
  | nil => intro _; exact stripTags_nil
  | ch c m ih =>
    intro hwf
    simp only [Markup.wf, Bool.and_eq_true, bne_iff_ne] at hwf
    rw [Markup.render, Markup.visible, stripTags_cons_ne c _ hwf.1, ih hwf.2]
  | tag inner m ih =>
    intro hwf
    simp only [Markup.wf, Bool.and_eq_true, Bool.not_eq_true'] at hwf
    rw [Markup.render, Markup.visible,
      stripTags_tag _ _ (findTagEnd_through inner m.render hwf.1.1 hwf.1.2), ih hwf.2]

/-- C9 amended: the regex-based stripping removes every markup tag whose
body stays on one line (no newline before the closing bracket),
preserving the visible text and its order; in particular the example
document produces exactly the text `Hello World`.  Tags containing a
newline are not removed (see the counterexample). -/
theorem c9_strip_singleline_tags :
    (∀ m : Markup, m.wf = true → stripTags m.render = m.visible)
    ∧ stripTags "<p>Hello <b>World</b></p>".toList = "Hello World".toList := by
  refine ⟨strip_markup_visible, ?_⟩
  have h := strip_markup_visible exMarkup (by decide)
  rw [show exMarkup.render = "<p>Hello <b>World</b></p>".toList from by decide,
    show exMarkup.visible = "Hello World".toList from by decide] at h
  exact h

/-- C9 witness: the amended statement applied to the example document. -/
theorem c9_strip_singleline_tags_witness :
    exMarkup.wf = true ∧ stripTags exMarkup.render = exMarkup.visible :=
  ⟨by decide, (c9_strip_singleline_tags).1 exMarkup (by decide)⟩

/-- C9 counterexample: the claim states every markup tag is removed and
the visible text preserved.  The document `<p\n>Hello` consists of the
single tag `<p\n>` (a legal tag: markup allows whitespace, newlines
included, before the closing bracket) followed by the visible text
`Hello`; the regex `.` does not match the newline, so nothing is
removed and the output still contains the tag instead of the visible
text `Hello`. -/
theorem c9_counterexample_newline_tag :
    stripTags "<p\n>Hello".toList = "<p\n>Hello".toList
    ∧ "<p\n>Hello".toList = (Markup.tag ['p', '\n'] (Markup.chs "Hello".toList .nil)).render
    ∧ (Markup.tag ['p', '\n'] (Markup.chs "Hello".toList .nil)).visible = "Hello".toList
    ∧ "<p\n>Hello".toList ≠ "Hello".toList := by
  refine ⟨?_, by decide, by decide, by decide⟩
  rw [show "<p\n>Hello".toList = '<' :: "p\n>Hello".toList from by decide]
  rw [stripTags_lt_none _ (by decide), stripTags_no_lt _ (by decide)]
